import Mathlib

/-!
Shallow embedding of the ScrapeX pipeline (src/src/twitter/DataOrganizer.js):
the analytics aggregation (generateAnalytics), the cookie load/save round trip,
the login retry loop, the paginated collection loop, the parent tweet
resolution, and the stage ordering of the run pipeline.
JavaScript objects are modelled as Lean structures with absent fields as
Option none; machine numbers are Nat/Int.
-/

namespace ScrapeX

/-- JS string truthiness used by the source: an absent value or the empty
string is falsy and yields none. -/
def jsStr : Option String → Option String
  | some s => if s = "" then none else some s
  | none => none

/-- Embedding of a raw tweet object. A field that may be absent in the JS
object is an Option; `photos`, `videos` and `urls` are modelled by the length
of the corresponding array (none when the field is absent). -/
structure Tweet where
  id : Option String
  text : String
  timestamp : Option Int
  isReply : Bool
  isRetweet : Bool
  likes : Option Nat
  retweetCount : Option Nat
  replies : Option Nat
  photos : Option Nat
  videos : Option Nat
  urls : Option Nat
  permanentUrl : Option String
  inReplyToStatusId : Option String
  inReplyToText : Option String
deriving DecidableEq, Repr

/-- One element of the topTweets list built by generateAnalytics. -/
structure TopTweet where
  id : Option String
  text : String
  likes : Option Nat
  retweetCount : Option Nat
  url : Option String
deriving DecidableEq, Repr

/-- The engagement block of the analytics report. -/
structure Engagement where
  totalLikes : Nat
  totalRetweetCount : Nat
  totalReplies : Nat
  averageLikes : String
  topTweets : List TopTweet
deriving DecidableEq, Repr

/-- The time range block of the analytics report. -/
structure TimeRange where
  start : String
  «end» : String
deriving DecidableEq, Repr

/-- The content type block of the analytics report. -/
structure ContentTypes where
  withImages : Nat
  withVideos : Nat
  withLinks : Nat
  textOnly : Nat
deriving DecidableEq, Repr

/-- The full analytics report returned by generateAnalytics. -/
structure Analytics where
  totalTweets : Nat
  directTweets : Nat
  replies : Nat
  retweets : Nat
  engagement : Engagement
  timeRange : TimeRange
  contentTypes : ContentTypes
deriving DecidableEq, Repr

/-- Two digit decimal padding. -/
def pad2 (n : Nat) : String := if n < 10 then "0" ++ toString n else toString n

/-- Four digit decimal padding for years. -/
def pad4 (n : Nat) : String :=
  if n < 10 then "000" ++ toString n
  else if n < 100 then "00" ++ toString n
  else if n < 1000 then "0" ++ toString n
  else toString n

/-- Proleptic Gregorian civil date (year, month, day) from a count of days
since the Unix epoch (the Hinnant civil-from-days algorithm). -/
def civilFromDays (z0 : Int) : Int × Nat × Nat :=
  let z := z0 + 719468
  let era : Int := z.fdiv 146097
  let doe : Nat := (z - era * 146097).toNat
  let yoe : Nat := (doe - doe / 1460 + doe / 36524 - doe / 146096) / 365
  let doy : Nat := doe - (365 * yoe + yoe / 4 - yoe / 100)
  let mp : Nat := (5 * doy + 2) / 153
  let d : Nat := doy - (153 * mp + 2) / 5 + 1
  let m : Nat := if mp < 10 then mp + 3 else mp - 9
  let y : Int := (yoe : Int) + era * 400
  (if m ≤ 2 then y + 1 else y, m, d)

/-- Embedding of format(new Date(ms), yyyy-MM-dd) at UTC offset zero, for a
timestamp in milliseconds since the epoch. -/
def formatYMD (ms : Int) : String :=
  let days := ms.fdiv 86400000
  let c := civilFromDays days
  (if c.1 < 0 then "-" ++ pad4 (-c.1).toNat else pad4 c.1.toNat)
    ++ "-" ++ pad2 c.2.1 ++ "-" ++ pad2 c.2.2

/-- Digit string N.DD for a quantity of n hundredths. -/
def fixedOfHundredths (n : Nat) : String :=
  toString (n / 100) ++ "." ++ pad2 (n % 100)

/-- Embedding of (sum / len).toFixed(2) as it occurs in generateAnalytics:
the JS division of two numbers with len = 0 gives NaN there (the numerator is
a fold over an empty list, hence 0, whenever len is 0), and toFixed renders
NaN as the string NaN. For len positive the quotient is rounded half up to a
hundredth and printed with two decimals. -/
def toFixed2 (sum len : Nat) : String :=
  if len = 0 then "NaN" else fixedOfHundredths ((200 * sum + len) / (2 * len))

/-- Sum of the likes counts with an absent count read as 0, embedding the
reduce over (t.likes or 0). -/
def sumLikes (l : List Tweet) : Nat := (l.map fun t => t.likes.getD 0).sum

/-- Sum of the retweet counts with an absent count read as 0. -/
def sumRetweetCount (l : List Tweet) : Nat := (l.map fun t => t.retweetCount.getD 0).sum

/-- Sum of the reply counts with an absent count read as 0. -/
def sumReplies (l : List Tweet) : Nat := (l.map fun t => t.replies.getD 0).sum

/-- The comparator (a, b) => (b.likes or 0) - (a.likes or 0) used to sort the
engagement set: a may stay before b exactly when the comparator is not
positive there. -/
def descLikes (a b : Tweet) : Bool := decide (b.likes.getD 0 ≤ a.likes.getD 0)

/-- Projection of a tweet to a topTweets entry, truncating the text to its
first 100 characters. -/
def toTopTweet (t : Tweet) : TopTweet :=
  { id := t.id, text := t.text.take 100, likes := t.likes,
    retweetCount := t.retweetCount, url := t.permanentUrl }

/-- The non-null timestamps of the input, sorted ascending: the JS code
filters out null timestamps, maps to the timestamp and sorts numerically. -/
def validDates (tweets : List Tweet) : List Int :=
  (tweets.filterMap fun t => t.timestamp).mergeSort fun a b => decide (a ≤ b)

/-- The report generateAnalytics returns for an empty input list. -/
def zeroAnalytics : Analytics :=
  { totalTweets := 0, directTweets := 0, replies := 0, retweets := 0,
    engagement := { totalLikes := 0, totalRetweetCount := 0, totalReplies := 0,
                    averageLikes := "0.00", topTweets := [] },
    timeRange := { start := "N/A", «end» := "N/A" },
    contentTypes := { withImages := 0, withVideos := 0, withLinks := 0, textOnly := 0 } }

/-- Embedding of DataOrganizer.generateAnalytics. The engagement block is
computed over the tweets with isRetweet false; the JS in-place sort is a
stable sort (ECMAScript guarantees stability), embedded as mergeSort. -/
def generateAnalytics (tweets : List Tweet) : Analytics :=
  if tweets = [] then zeroAnalytics
  else
    let tfe := tweets.filter fun t => !t.isRetweet
    { totalTweets := tweets.length,
      directTweets := (tweets.filter fun t => !t.isReply && !t.isRetweet).length,
      replies := (tweets.filter fun t => t.isReply).length,
      retweets := (tweets.filter fun t => t.isRetweet).length,
      engagement :=
        { totalLikes := sumLikes tfe,
          totalRetweetCount := sumRetweetCount tfe,
          totalReplies := sumReplies tfe,
          averageLikes := toFixed2 (sumLikes tfe) tfe.length,
          topTweets := ((tfe.mergeSort descLikes).take 5).map toTopTweet },
      timeRange :=
        { start := match validDates tweets with
            | [] => "N/A"
            | d :: _ => formatYMD d,
          «end» := match (validDates tweets).getLast? with
            | none => "N/A"
            | some d => formatYMD d },
      contentTypes :=
        { withImages := (tweets.filter fun t => decide (0 < t.photos.getD 0)).length,
          withVideos := (tweets.filter fun t => decide (0 < t.videos.getD 0)).length,
          withLinks := (tweets.filter fun t => decide (0 < t.urls.getD 0)).length,
          textOnly := (tweets.filter fun t =>
            decide (t.photos.getD 0 = 0) && decide (t.videos.getD 0 = 0)
              && decide (t.urls.getD 0 = 0)).length } }

/-- The Logger.warn lines generateAnalytics emits, as a function of the same
input (the logger has no other effect on the result). -/
def analyticsWarnings (tweets : List Tweet) : List String :=
  if tweets = [] then ["⚠️  No tweets to analyze."]
  else
    let invalid := (tweets.filter fun t => t.timestamp.isNone).length
    if 0 < invalid then
      ["⚠️  Found " ++ toString invalid
        ++ " tweets with invalid or missing dates. They will be excluded from analytics."]
    else []

/-- A persisted cookie record entry: JSON object fields, each possibly
absent. Loading accepts either key or name for the cookie name. -/
structure CookieRec where
  key : Option String
  name : Option String
  value : Option String
  domain : Option String
  path : Option String
  secure : Option Bool
  httpOnly : Option Bool
deriving DecidableEq, Repr

/-- The wire/jar cookie shape the session capability works with: the fields
the Set-Cookie string built by loadCookies determines. -/
structure ToughCookie where
  key : String
  value : String
  domain : String
  path : String
  secure : Bool
  httpOnly : Bool
deriving DecidableEq, Repr

/-- The cookie name chosen by loadCookies: c.key falling back to c.name,
with JS truthiness (empty string is falsy). -/
def keyOf (c : CookieRec) : Option String :=
  match jsStr c.key with
  | some k => some k
  | none => jsStr c.name

/-- Strip one layer of surrounding double quotes when the value starts and
ends with a quote and is longer than one character, as loadCookies does.
Characters model the JS string operations directly. -/
def stripQuotes (v : String) : String :=
  if v.data.head? = some '"' ∧ v.data.getLast? = some '"' ∧ 1 < v.data.length then
    String.mk ((v.data.drop 1).dropLast)
  else v

/-- Per-entry decoding done by loadCookies: record entry to jar cookie.
Entries without a usable name or with an empty value after unquoting are
dropped (none). Defaults: domain twitter.com, path /, secure true (nullish
coalescing), httpOnly false. -/
def decodeEntry (c : CookieRec) : Option ToughCookie :=
  match keyOf c with
  | none => none
  | some key =>
    if stripQuotes (c.value.getD "") = "" then none
    else some { key := key, value := stripQuotes (c.value.getD ""),
                domain := (jsStr c.domain).getD "twitter.com",
                path := (jsStr c.path).getD "/",
                secure := c.secure.getD true,
                httpOnly := c.httpOnly.getD false }

/-- Per-entry encoding done by saveCookies: jar cookie to record entry.
Cookies with a falsy key or value are dropped; domain and path default when
falsy; secure is written as true and httpOnly as false unconditionally. -/
def encodeEntry (c : ToughCookie) : Option CookieRec :=
  if c.key = "" ∨ c.value = "" then none
  else some { key := some c.key, name := none, value := some c.value,
              domain := some (if c.domain = "" then "twitter.com" else c.domain),
              path := some (if c.path = "" then "/" else c.path),
              secure := some true, httpOnly := some false }

/-- Decoding a whole persisted record: loadCookies maps decodeEntry over the
array and filters out the dropped entries. -/
def decodeCookies (recs : List CookieRec) : List ToughCookie :=
  recs.filterMap decodeEntry

/-- Encoding the cookies of the jar back to a persisted record, as
saveCookies does. -/
def encodeCookies (cs : List ToughCookie) : List CookieRec :=
  cs.filterMap encodeEntry

/-- The record produced by decoding a persisted record into the jar and
saving the jar again. -/
def roundTrip (recs : List CookieRec) : List CookieRec :=
  encodeCookies (decodeCookies recs)

/-- The record entry saveCookies writes for a given jar cookie that survived
decoding: secure and httpOnly are overwritten. -/
def reencodedRecord (c : ToughCookie) : CookieRec :=
  { key := some c.key, name := none, value := some c.value,
    domain := some c.domain, path := some c.path,
    secure := some true, httpOnly := some false }

/-- Embedding of the login retry loop of initializeScraper. The outcome
oracle tells whether attempt n succeeds (login throws neither and the
session reports logged in). remaining is maxRetries - attempt + 1 at entry.
Returns (success flag, number of the last attempt made, list of backoff
delays slept, in order). -/
def loginAttempts (outcome : Nat → Bool) (retryDelay : Nat) :
    Nat → Nat → Bool × Nat × List Nat
  | 0, attempt => (false, attempt - 1, [])
  | remaining + 1, attempt =>
    if outcome attempt then (true, attempt, [])
    else if remaining = 0 then (false, attempt, [])
    else
      let rest := loginAttempts outcome retryDelay remaining (attempt + 1)
      (rest.1, rest.2.1, retryDelay * attempt :: rest.2.2)

/-- The whole fresh-login phase: attempts start at 1 and the loop runs while
attempt is at most maxRetries. -/
def initializeScraperLogin (outcome : Nat → Bool) (maxRetries retryDelay : Nat) :
    Bool × Nat × List Nat :=
  loginAttempts outcome retryDelay maxRetries 1

/-- Embedding of the maxWanted computation of collectMainTweets:
totalTweetsForUser is 0 when the profile lookup throws (profile = none) and
profile.tweetsCount or 0 on success; maxWanted is the minimum of the
configured maximum and (totalTweetsForUser or 1e9), where the JS truthiness
fallback turns a zero count into 1e9. -/
def effectiveMaxWanted (maxTweets : Nat) (profile : Option Nat) : Nat :=
  let totalTweetsForUser := profile.getD 0
  min maxTweets (if totalTweetsForUser = 0 then 1000000000 else totalTweetsForUser)

/-- The identifier of a raw search result: the item may be null and its id
field absent or empty, both skipped by the loop. -/
def idPair (raw : Option Tweet) : Option (String × Tweet) :=
  raw.bind fun t => (jsStr t.id).map fun i => (i, t)

/-- Embedding of the for-await collection loop of collectMainTweets over a
finite source sequence. results is the insertion-ordered Map contents; count
is incremented for every item bearing an identifier, duplicate or not, and
the loop breaks when count reaches maxWanted. -/
def collectGo (maxWanted : Nat) :
    List (Option Tweet) → List (String × Tweet) → Nat → List (String × Tweet)
  | [], results, _ => results
  | raw :: rest, results, count =>
    match idPair raw with
    | none => collectGo maxWanted rest results count
    | some (id, t) =>
      let results1 := if id ∈ results.map Prod.fst then results else results ++ [(id, t)]
      if maxWanted ≤ count + 1 then results1
      else collectGo maxWanted rest results1 (count + 1)

/-- The deduplicated set collectMainTweets builds from a source sequence and
an effective cap. -/
def collectMainTweets (items : List (Option Tweet)) (maxWanted : Nat) :
    List (String × Tweet) :=
  collectGo maxWanted items [] 0

/-- Insertion of a keyed stream into an insertion-ordered map, keeping the
first item for each identifier. -/
def dedupGo : List (String × Tweet) → List (String × Tweet) → List (String × Tweet)
  | results, [] => results
  | results, (id, t) :: rest =>
    dedupGo (if id ∈ results.map Prod.fst then results else results ++ [(id, t)]) rest

/-- First-wins deduplication by identifier. -/
def dedupKeys (l : List (String × Tweet)) : List (String × Tweet) := dedupGo [] l

/-- Outcome of the single-item parent fetch: the call may throw, or return a
record whose text may be absent (a null parent is folded into ok none). -/
inductive FetchOutcome where
  | threw (msg : String)
  | ok (text : Option String)
deriving DecidableEq, Repr

/-- Per-item behaviour of fetchAllParentTweets: a tweet with a truthy
inReplyToStatusId gets inReplyToText assigned (the parent text, or the empty
string when the parent is missing, its text falsy, or the fetch threw); the
warning line produced on a throw is returned alongside. Other tweets are
untouched. -/
def fetchParentUpdate (fetch : String → FetchOutcome) (t : Tweet) : Tweet × List String :=
  match jsStr t.inReplyToStatusId with
  | none => (t, [])
  | some parentId =>
    match fetch parentId with
    | .ok txt => ({ t with inReplyToText := some ((jsStr txt).getD "") }, [])
    | .threw msg =>
      ({ t with inReplyToText := some "" },
       ["fetch parent [" ++ parentId ++ "] => " ++ msg])

/-- Embedding of fetchAllParentTweets: every reply in the batch is processed
in order and mutated in place; the failure of one item never stops the
iteration. -/
def fetchAllParentTweets (fetch : String → FetchOutcome) (tweets : List Tweet) :
    List Tweet :=
  tweets.map fun t => (fetchParentUpdate fetch t).1

/-- The warning lines fetchAllParentTweets logs, one per thrown fetch, in
processing order. -/
def parentFetchWarnings (fetch : String → FetchOutcome) (tweets : List Tweet) :
    List String :=
  (tweets.map fun t => (fetchParentUpdate fetch t).2).flatten

/-- The observable stages of TwitterPipeline.run and of the saveTweets and
saveFineTuneData helpers it awaits. -/
inductive PipelineEvent where
  | validateEnv
  | initScraper
  | collect
  | saveRaw
  | saveUrls
  | aggregate
  | saveAnalytics
  | saveSummary
  | fetchParents
  | saveFineTune
  | showSample
  | cleanup
deriving DecidableEq, Repr, BEq

/-- The stages DataOrganizer.saveTweets runs, in order: it writes the raw
tweets, writes the urls, generates analytics, writes them, and writes the
summary. -/
def saveTweetsEvents : List PipelineEvent :=
  [.saveRaw, .saveUrls, .aggregate, .saveAnalytics, .saveSummary]

/-- The stage sequence of TwitterPipeline.run on the path selected by the
two flags: whether initializeScraper succeeded and whether the collection
returned a nonempty batch. saveFineTuneData first calls saveTweets again and
then writes the fine-tune file. -/
def runEvents (initOk hasTweets : Bool) : List PipelineEvent :=
  [.validateEnv, .initScraper] ++
    (if initOk then
      [PipelineEvent.collect] ++
        (if hasTweets then
          saveTweetsEvents ++ [PipelineEvent.fetchParents] ++ saveTweetsEvents
            ++ [.saveFineTune, .showSample, .cleanup]
        else [])
    else [])

/-- Modelled from the spec (claim side): mean of the likes of a list of
posts as a rational number. -/
def specMeanLikes (l : List Tweet) : ℚ := (sumLikes l : ℚ) / (l.length : ℚ)

/-- Modelled from the spec (claim side): a rational formatted to two decimal
places, rounding half up. -/
def fmtRat2 (q : ℚ) : String := fixedOfHundredths ⌊q * 100 + 1 / 2⌋₊

/-- Modelled from the spec (claim side): the arithmetic mean of the likes,
formatted to two decimal places. -/
def fmtMean2 (l : List Tweet) : String := fmtRat2 (specMeanLikes l)

/-- Modelled from the claim wording of C2: the collection loop as the claim
states it, where only newly accepted identifiers advance the accepted count
toward maxWanted and duplicates are absorbed without being counted. -/
def specCollectGo (maxWanted : Nat) :
    List (Option Tweet) → List (String × Tweet) → Nat → List (String × Tweet)
  | [], results, _ => results
  | raw :: rest, results, accepted =>
    match idPair raw with
    | none => specCollectGo maxWanted rest results accepted
    | some (id, t) =>
      if id ∈ results.map Prod.fst then specCollectGo maxWanted rest results accepted
      else
        let results1 := results ++ [(id, t)]
        if maxWanted ≤ accepted + 1 then results1
        else specCollectGo maxWanted rest results1 (accepted + 1)

/-- Modelled from the claim wording of C2: collection with the accepted
count advancing only on insertion. -/
def specCollect (items : List (Option Tweet)) (maxWanted : Nat) :
    List (String × Tweet) :=
  specCollectGo maxWanted items [] 0

/-- A minimal tweet with a given id, all other fields absent or empty. -/
def mkT (s : String) : Tweet :=
  { id := some s, text := "", timestamp := none, isReply := false,
    isRetweet := false, likes := none, retweetCount := none, replies := none,
    photos := none, videos := none, urls := none, permanentUrl := none,
    inReplyToStatusId := none, inReplyToText := none }

/-- A retweet with 100 likes, used to exercise the engagement filter. -/
def rtTweet : Tweet := { mkT "rt1" with isRetweet := true, likes := some 100 }

/-- A source sequence that yields the same identifier on two pages and then
a fresh one. -/
def dupSeq : List (Option Tweet) := [some (mkT "1"), some (mkT "1"), some (mkT "2")]

/-- A reply tweet referencing parent p9. -/
def replyTweet : Tweet := { mkT "r2" with inReplyToStatusId := some "p9" }

/-- A parent fetch oracle that always throws. -/
def failFetch : String → FetchOutcome := fun _ => .threw "timeout"

/-- A tweet with a valid timestamp. -/
def tsTweet : Tweet := { mkT "n2" with timestamp := some 0 }

/-- A persisted cookie entry that survives filtering but carries secure
false and httpOnly true. -/
def c4rec : CookieRec :=
  { key := some "auth_token", name := none, value := some "abc",
    domain := some "twitter.com", path := some "/",
    secure := some false, httpOnly := some true }

theorem jsStr_ne_empty {o : Option String} {s : String} (h : jsStr o = some s) :
    s ≠ "" := by
  cases o with
  | none => simp [jsStr] at h
  | some v =>
    by_cases hv : v = ""
    · simp [jsStr, hv] at h
    · simp [jsStr, hv] at h
      exact h ▸ hv

theorem keyOf_ne_empty {r : CookieRec} {k : String} (h : keyOf r = some k) :
    k ≠ "" := by
  unfold keyOf at h
  cases hk : jsStr r.key with
  | some k0 =>
    rw [hk] at h
    have h2 : some k0 = some k := h
    cases h2
    exact jsStr_ne_empty hk
  | none =>
    rw [hk] at h
    have h2 : jsStr r.name = some k := h
    exact jsStr_ne_empty h2

theorem jsStrD_ne_empty {o : Option String} {d : String} (hd : d ≠ "") :
    (jsStr o).getD d ≠ "" := by
  cases ho : jsStr o with
  | none => simpa using hd
  | some s => simpa using jsStr_ne_empty ho

theorem decodeEntry_fields {r : CookieRec} {tc : ToughCookie}
    (h : decodeEntry r = some tc) :
    tc.key ≠ "" ∧ tc.value ≠ "" ∧ tc.domain ≠ "" ∧ tc.path ≠ "" := by
  unfold decodeEntry at h
  split at h
  · exact absurd h (by simp)
  · next k hk =>
    split at h
    · exact absurd h (by simp)
    · next hv =>
      cases h
      exact ⟨keyOf_ne_empty hk, hv, jsStrD_ne_empty (by decide), jsStrD_ne_empty (by decide)⟩

theorem encode_of_decode {r : CookieRec} {tc : ToughCookie}
    (h : decodeEntry r = some tc) :
    encodeEntry tc = some (reencodedRecord tc) := by
  obtain ⟨hk, hv, hd, hp⟩ := decodeEntry_fields h
  simp [encodeEntry, reencodedRecord, hk, hv, hd, hp]

/-- C7: aggregate applied to the empty list returns exactly the defined zero
report: totalTweets, directTweets, replies, retweets and all content type
counts are 0, the engagement sums are 0, averageLikes is the string 0.00,
the time range is N/A for both endpoints, and the top tweets list is
empty. -/
theorem c7_aggregate_empty :
    generateAnalytics [] =
      { totalTweets := 0, directTweets := 0, replies := 0, retweets := 0,
        engagement := { totalLikes := 0, totalRetweetCount := 0, totalReplies := 0,
                        averageLikes := "0.00", topTweets := [] },
        timeRange := { start := "N/A", «end» := "N/A" },
        contentTypes := { withImages := 0, withVideos := 0,
                          withLinks := 0, textOnly := 0 } } := rfl

/-- C5 counterexample: a profile lookup that succeeds and reports zero posts
does not produce the claimed cap min(configured, 0) = 0; the code treats the
zero count like a failed lookup and keeps the configured maximum. -/
theorem c5_counterexample :
    effectiveMaxWanted 10000 (some 0) = 10000 ∧
      min 10000 0 = 0 ∧
      effectiveMaxWanted 10000 (some 0) ≠ min 10000 0 := by decide

/-- C5 amended: when the profile lookup succeeds with a positive count the
cap is the smaller of the configured maximum and that count; when the lookup
fails, or succeeds with a zero count, the cap falls back to the configured
maximum (through min with 1e9, the identity whenever the configured maximum
is at most 1e9). -/
theorem c5_amended (m : Nat) (p : Option Nat) :
    (∀ c, p = some c → 0 < c → effectiveMaxWanted m p = min m c) ∧
      ((p = none ∨ p = some 0) → m ≤ 1000000000 → effectiveMaxWanted m p = m) := by
  constructor
  · rintro c rfl hc
    simp [effectiveMaxWanted, Nat.pos_iff_ne_zero.mp hc]
  · rintro (rfl | rfl) hm <;> simp [effectiveMaxWanted, Nat.min_eq_left hm]

theorem c5_amended_witness :
    effectiveMaxWanted 10000 (some 50) = min 10000 50 ∧
      effectiveMaxWanted 10000 none = 10000 :=
  ⟨(c5_amended 10000 (some 50)).1 50 rfl (by decide),
   (c5_amended 10000 none).2 (Or.inl rfl) (by decide)⟩

/-- C3 counterexample: in a successful run with a nonempty batch the claim
that aggregation never runs before the parent fetches have finished is
false: the stage trace aggregates at index 5 while the parent fetch stage
sits at index 8. -/
theorem c3_counterexample :
    ¬ (∀ (i j : Nat), (runEvents true true)[i]? = some PipelineEvent.aggregate →
        (runEvents true true)[j]? = some PipelineEvent.fetchParents → j < i) := by
  intro h
  have h58 := h 5 8 (by decide) (by decide)
  omega

/-- C3 amended: a successful run with a nonempty batch aggregates twice,
once on the partial corpus before parent resolution and once after it; the
single parent fetch stage sits between the two aggregations, so only the
second, final aggregation follows all parent fetches. -/
theorem c3_amended :
    (runEvents true true).count PipelineEvent.aggregate = 2 ∧
      ((runEvents true true).take 8).count PipelineEvent.aggregate = 1 ∧
      (runEvents true true)[8]? = some PipelineEvent.fetchParents ∧
      (runEvents true true).count PipelineEvent.fetchParents = 1 ∧
      ((runEvents true true).drop 9).count PipelineEvent.aggregate = 1 := by decide

/-- C4 counterexample: a persisted record whose single entry survives
filtering but has secure false and httpOnly true is not restored by the
round trip: the saved record carries secure true and httpOnly false. -/
theorem c4_counterexample :
    (decodeCookies [c4rec]).length = 1 ∧
      roundTrip [c4rec] ≠ [c4rec] ∧
      (roundTrip [c4rec]).map (fun r => r.secure) = [some true] ∧
      (roundTrip [c4rec]).map (fun r => r.httpOnly) = [some false] := by decide

/-- C4 amended: the round trip writes back, for every decoded cookie, a
record with the same key, value, domain and path as the decoded cookie, but
with secure always true and httpOnly always false; records whose entries
carry secure false or httpOnly true are therefore not preserved even when
every entry survives filtering. -/
theorem c4_amended (recs : List CookieRec) :
    roundTrip recs = (decodeCookies recs).map reencodedRecord := by
  induction recs with
  | nil => rfl
  | cons r rest ih =>
    unfold roundTrip decodeCookies encodeCookies at *
    cases hr : decodeEntry r with
    | none => simp only [List.filterMap_cons, hr]; exact ih
    | some tc =>
      simp only [List.filterMap_cons, hr, encode_of_decode hr, List.map_cons]
      exact congrArg _ ih

theorem floor_half_up (s c : Nat) (hc : c ≠ 0) :
    ⌊(s : ℚ) / (c : ℚ) * 100 + 1 / 2⌋₊ = (200 * s + c) / (2 * c) := by
  have hc0 : (c : ℚ) ≠ 0 := Nat.cast_ne_zero.mpr hc
  have key : (s : ℚ) / (c : ℚ) * 100 + 1 / 2
      = ((200 * s + c : ℕ) : ℚ) / ((2 * c : ℕ) : ℚ) := by
    push_cast
    field_simp
    ring
  rw [key, Nat.floor_div_nat, Nat.floor_natCast]

theorem toFixed2_eq_fmtMean2 {l : List Tweet} (h : l ≠ []) :
    toFixed2 (sumLikes l) l.length = fmtMean2 l := by
  have hlen : l.length ≠ 0 := by simpa using h
  unfold toFixed2 fmtMean2 fmtRat2 specMeanLikes
  rw [if_neg hlen, floor_half_up _ _ hlen]

/-- C1 counterexample: a nonempty input consisting only of retweets has an
empty non-retweet subset, and the code then renders the 0 / 0 division as
the string NaN, not as the claimed 0.00. -/
theorem c1_counterexample :
    (generateAnalytics [rtTweet]).engagement.averageLikes = "NaN" ∧
      (generateAnalytics [rtTweet]).engagement.averageLikes ≠ "0.00" := by
  constructor
  · rfl
  · decide

/-- C1 amended: averageLikes is the arithmetic mean of likes (missing likes
counted as 0) over the non-retweet posts, rounded half up to 2 decimal
places, whenever that subset is nonempty; it is the literal string 0.00 only
when the whole input list is empty, and it is the string NaN when the input
is nonempty but consists only of retweets. -/
theorem c1_average_likes_amended (tweets : List Tweet) :
    (generateAnalytics tweets).engagement.averageLikes =
      if tweets = [] then "0.00"
      else if tweets.filter (fun t => !t.isRetweet) = [] then "NaN"
      else fmtMean2 (tweets.filter fun t => !t.isRetweet) := by
  by_cases h : tweets = []
  · simp [h, generateAnalytics, zeroAnalytics]
  · rw [if_neg h]
    by_cases h2 : tweets.filter (fun t => !t.isRetweet) = []
    · rw [if_pos h2]
      simp [generateAnalytics, h, h2, toFixed2]
    · rw [if_neg h2, ← toFixed2_eq_fmtMean2 h2]
      simp [generateAnalytics, h]

theorem loginAttempts_le (o : Nat → Bool) (d : Nat) :
    ∀ (r a : Nat), (loginAttempts o d r a).2.1 ≤ a + r - 1 := by
  intro r
  induction r with
  | zero => intro a; simp [loginAttempts]
  | succ n ih =>
    intro a
    rw [loginAttempts]
    by_cases h1 : o a = true
    · simp [h1]
    · by_cases h2 : n = 0
      · simp [h1, h2]
      · have := ih (a + 1)
        simp only [h1, h2, if_false, ite_false, Bool.false_eq_true]
        omega

theorem loginAttempts_ge (o : Nat → Bool) (d : Nat) :
    ∀ (r a : Nat), 1 ≤ r → a ≤ (loginAttempts o d r a).2.1 := by
  intro r
  induction r with
  | zero => intro a h; omega
  | succ n ih =>
    intro a _
    rw [loginAttempts]
    by_cases h1 : o a = true
    · simp [h1]
    · by_cases h2 : n = 0
      · simp [h1, h2]
      · have := ih (a + 1) (Nat.one_le_iff_ne_zero.mpr h2)
        simp only [h1, h2, if_false, ite_false, Bool.false_eq_true]
        omega

theorem loginAttempts_delays (o : Nat → Bool) (d : Nat) :
    ∀ (r a : Nat), (loginAttempts o d r a).2.2 =
      (List.range ((loginAttempts o d r a).2.1 - a)).map (fun i => d * (a + i)) := by
  intro r
  induction r with
  | zero => intro a; simp [loginAttempts]
  | succ n ih =>
    intro a
    rw [loginAttempts]
    by_cases h1 : o a = true
    · simp [h1]
    · by_cases h2 : n = 0
      · simp [h1, h2]
      · have hge := loginAttempts_ge o d n (a + 1) (Nat.one_le_iff_ne_zero.mpr h2)
        simp only [h1, h2, if_false, ite_false, Bool.false_eq_true]
        rw [ih (a + 1)]
        have harith : (loginAttempts o d n (a + 1)).2.1 - a
            = ((loginAttempts o d n (a + 1)).2.1 - (a + 1)) + 1 := by omega
        have hpt : ∀ i ∈ List.range ((loginAttempts o d n (a + 1)).2.1 - (a + 1)),
            d * (a + 1 + i) = ((fun i => d * (a + i)) ∘ (· + 1)) i := by
          intro i _
          simp only [Function.comp_apply]
          congr 1
          omega
        rw [harith, List.range_succ_eq_map, List.map_cons, List.map_map,
            List.map_congr_left hpt]
        simp

theorem loginAttempts_false (o : Nat → Bool) (d : Nat) (hf : ∀ n, o n = false) :
    ∀ (r a : Nat), (loginAttempts o d r a).1 = false := by
  intro r
  induction r with
  | zero => intro a; simp [loginAttempts]
  | succ n ih =>
    intro a
    rw [loginAttempts]
    simp only [hf a, if_false, ite_false, Bool.false_eq_true]
    by_cases h2 : n = 0
    · simp [h2]
    · simp [h2, ih (a + 1)]

theorem loginAttempts_false_attempts (o : Nat → Bool) (d : Nat)
    (hf : ∀ n, o n = false) :
    ∀ (r a : Nat), 1 ≤ r → (loginAttempts o d r a).2.1 = a + r - 1 := by
  intro r
  induction r with
  | zero => intro a h; omega
  | succ n ih =>
    intro a _
    rw [loginAttempts]
    simp only [hf a, if_false, ite_false, Bool.false_eq_true]
    by_cases h2 : n = 0
    · simp [h2]
    · have := ih (a + 1) (Nat.one_le_iff_ne_zero.mpr h2)
      simp only [h2, if_false, ite_false]
      omega

/-- C6: the login loop makes at most maxRetries attempts; the backoff delays
slept are exactly retryDelay * 1, retryDelay * 2, ... so that the delay
before attempt n equals retryDelay * (n - 1) for n at least 2 and no delay
precedes attempt 1; and when every attempt fails, the loop returns false
after making exactly maxRetries attempts. -/
theorem c6_login_retry (o : Nat → Bool) (maxRetries retryDelay : Nat) :
    (initializeScraperLogin o maxRetries retryDelay).2.1 ≤ maxRetries ∧
    (initializeScraperLogin o maxRetries retryDelay).2.2 =
      (List.range ((initializeScraperLogin o maxRetries retryDelay).2.1 - 1)).map
        (fun i => retryDelay * (1 + i)) ∧
    ((∀ n, o n = false) →
      (initializeScraperLogin o maxRetries retryDelay).1 = false ∧
      (1 ≤ maxRetries →
        (initializeScraperLogin o maxRetries retryDelay).2.1 = maxRetries)) := by
  refine ⟨?_, ?_, ?_⟩
  · have := loginAttempts_le o retryDelay maxRetries 1
    unfold initializeScraperLogin
    omega
  · exact loginAttempts_delays o retryDelay maxRetries 1
  · intro hf
    refine ⟨loginAttempts_false o retryDelay hf maxRetries 1, fun h1 => ?_⟩
    have := loginAttempts_false_attempts o retryDelay hf maxRetries 1 h1
    unfold initializeScraperLogin
    omega

theorem c6_login_retry_witness :
    (initializeScraperLogin (fun _ => false) 3 7).2.1 ≤ 3 ∧
    (initializeScraperLogin (fun _ => false) 3 7).2.2 =
      (List.range ((initializeScraperLogin (fun _ => false) 3 7).2.1 - 1)).map
        (fun i => 7 * (1 + i)) ∧
    (initializeScraperLogin (fun _ => false) 3 7).1 = false ∧
    (initializeScraperLogin (fun _ => false) 3 7).2.1 = 3 := by
  have h := c6_login_retry (fun _ => false) 3 7
  have h3 := h.2.2 (fun n => rfl)
  exact ⟨h.1, h.2.1, h3.1, h3.2 (by decide)⟩

theorem collectGo_eq_dedupGo (maxWanted : Nat) :
    ∀ (items : List (Option Tweet)) (results : List (String × Tweet)) (count : Nat),
      count < maxWanted →
      collectGo maxWanted items results count
        = dedupGo results ((items.filterMap idPair).take (maxWanted - count)) := by
  intro items
  induction items with
  | nil => intro results count h; simp [collectGo, dedupGo]
  | cons raw rest ih =>
    intro results count h
    cases hid : idPair raw with
    | none => simp [collectGo, hid, List.filterMap_cons, ih results count h]
    | some p =>
      obtain ⟨id, t⟩ := p
      simp only [collectGo, hid, List.filterMap_cons]
      by_cases hstop : maxWanted ≤ count + 1
      · have h1 : maxWanted - count = 1 := by omega
        rw [if_pos hstop, h1]
        simp [dedupGo]
      · have h1 : maxWanted - count = (maxWanted - (count + 1)) + 1 := by omega
        rw [if_neg hstop, h1, List.take_succ_cons, dedupGo]
        exact ih _ (count + 1) (by omega)

theorem dedupGo_nodup :
    ∀ (l : List (String × Tweet)) (results : List (String × Tweet)),
      (results.map Prod.fst).Nodup → ((dedupGo results l).map Prod.fst).Nodup := by
  intro l
  induction l with
  | nil => intro results h; simpa [dedupGo] using h
  | cons p rest ih =>
    intro results h
    obtain ⟨id, t⟩ := p
    rw [dedupGo]
    by_cases hmem : id ∈ results.map Prod.fst
    · rw [if_pos hmem]
      exact ih results h
    · rw [if_neg hmem]
      apply ih
      simp [List.nodup_append, h, hmem]

/-- C2 counterexample: with maxWanted 2 and a source yielding the same
identifier twice and then a fresh one, the loop counts the duplicate toward
the stop threshold and breaks before reading the fresh identifier, so the
code result differs from the claimed behaviour in which duplicates are not
re-counted toward the accepted count. -/
theorem c2_counterexample :
    collectMainTweets dupSeq 2 ≠ specCollect dupSeq 2 ∧
      (collectMainTweets dupSeq 2).map Prod.fst = ["1"] ∧
      (specCollect dupSeq 2).map Prod.fst = ["1", "2"] := by decide

/-- C2 amended: items without an identifier are skipped and each identifier
is inserted at most once, so the resulting set has no two entries with the
same identifier; but every identifier-bearing item, duplicate or not,
advances the processed count, and the loop stops when the sequence is
exhausted or that processed count (not the accepted count) reaches
maxWanted: the result is the first-wins deduplication of the first
maxWanted identifier-bearing items. -/
theorem c2_amended (items : List (Option Tweet)) (maxWanted : Nat)
    (h : 1 ≤ maxWanted) :
    ((collectMainTweets items maxWanted).map Prod.fst).Nodup ∧
      collectMainTweets items maxWanted
        = dedupKeys ((items.filterMap idPair).take maxWanted) := by
  have heq := collectGo_eq_dedupGo maxWanted items [] 0 (by omega)
  constructor
  · rw [collectMainTweets, heq]
    exact dedupGo_nodup _ _ (by simp)
  · rw [collectMainTweets, heq]
    simp [dedupKeys]

theorem c2_amended_witness :
    ((collectMainTweets dupSeq 2).map Prod.fst).Nodup ∧
      collectMainTweets dupSeq 2 = dedupKeys ((dupSeq.filterMap idPair).take 2) :=
  c2_amended dupSeq 2 (by decide)

/-- C9: when the parent fetch of a reply throws, that reply gets
inReplyToText set to the empty string and a warning naming the parent id is
logged, while the batch keeps the same length and every item, before and
after the failing one, is still processed by the same per-item update: one
failure never aborts the batch. -/
theorem c9_parent_fetch_failure (fetch : String → FetchOutcome) (tweets : List Tweet)
    (i : Nat) (t : Tweet) (p m : String)
    (ht : tweets[i]? = some t) (hp : jsStr t.inReplyToStatusId = some p)
    (hf : fetch p = FetchOutcome.threw m) :
    (fetchAllParentTweets fetch tweets)[i]? = some { t with inReplyToText := some "" } ∧
      ("fetch parent [" ++ p ++ "] => " ++ m) ∈ parentFetchWarnings fetch tweets ∧
      (fetchAllParentTweets fetch tweets).length = tweets.length ∧
      (∀ (j : Nat) (u : Tweet), tweets[j]? = some u →
        (fetchAllParentTweets fetch tweets)[j]? = some (fetchParentUpdate fetch u).1) := by
  have hupd : fetchParentUpdate fetch t
      = ({ t with inReplyToText := some "" },
         ["fetch parent [" ++ p ++ "] => " ++ m]) := by
    simp [fetchParentUpdate, hp, hf]
  refine ⟨?_, ?_, ?_, ?_⟩
  · rw [fetchAllParentTweets, List.getElem?_map, ht]
    simp [hupd]
  · have hmem : t ∈ tweets := List.getElem?_mem ht
    unfold parentFetchWarnings
    apply List.mem_flatten.mpr
    exact ⟨(fetchParentUpdate fetch t).2, List.mem_map_of_mem _ hmem, by simp [hupd]⟩
  · simp [fetchAllParentTweets]
  · intro j u hu
    rw [fetchAllParentTweets, List.getElem?_map, hu]
    rfl

theorem c9_parent_fetch_failure_witness :
    (fetchAllParentTweets failFetch [replyTweet])[0]?
        = some { replyTweet with inReplyToText := some "" } ∧
      ("fetch parent [" ++ "p9" ++ "] => " ++ "timeout")
        ∈ parentFetchWarnings failFetch [replyTweet] ∧
      (fetchAllParentTweets failFetch [replyTweet]).length = [replyTweet].length ∧
      (∀ (j : Nat) (u : Tweet), [replyTweet][j]? = some u →
        (fetchAllParentTweets failFetch [replyTweet])[j]?
          = some (fetchParentUpdate failFetch u).1) :=
  c9_parent_fetch_failure failFetch [replyTweet] 0 replyTweet "p9" "timeout"
    rfl (by decide) rfl

theorem filterMap_timestamp_filter (l : List Tweet) :
    (l.filter fun t => t.timestamp.isSome).filterMap (fun t => t.timestamp)
      = l.filterMap fun t => t.timestamp := by
  induction l with
  | nil => rfl
  | cons h t ih =>
    cases hh : h.timestamp with
    | none => simp [List.filter_cons, List.filterMap_cons, hh, ih]
    | some v => simp [List.filter_cons, List.filterMap_cons, hh, ih]

theorem validDates_filter (tweets : List Tweet) :
    validDates (tweets.filter fun t => t.timestamp.isSome) = validDates tweets := by
  unfold validDates
  rw [filterMap_timestamp_filter]

/-- C10: every post with a null timestamp is excluded from both endpoints of
the time range (the time range of the report equals the one computed from
the valid-timestamp subset alone) but still counts toward totalTweets, and
when at least one such post exists in a nonempty input a warning naming the
count of excluded posts is logged. -/
theorem c10_invalid_timestamps (tweets : List Tweet) :
    (generateAnalytics tweets).totalTweets = tweets.length ∧
      (generateAnalytics tweets).timeRange
        = (generateAnalytics (tweets.filter fun t => t.timestamp.isSome)).timeRange ∧
      (tweets ≠ [] →
        0 < (tweets.filter fun t => t.timestamp.isNone).length →
        ("⚠️  Found " ++ toString (tweets.filter fun t => t.timestamp.isNone).length
            ++ " tweets with invalid or missing dates. They will be excluded from analytics.")
          ∈ analyticsWarnings tweets) := by
  refine ⟨?_, ?_, ?_⟩
  · by_cases h : tweets = []
    · simp [h, generateAnalytics, zeroAnalytics]
    · simp [generateAnalytics, h]
  · by_cases h : tweets = []
    · simp [h]
    · by_cases h2 : (tweets.filter fun t => t.timestamp.isSome) = []
      · have hvd : validDates tweets = [] := by
          rw [← validDates_filter, h2]
          simp [validDates]
        simp [generateAnalytics, h, h2, zeroAnalytics, hvd]
      · have hvd := validDates_filter tweets
        simp [generateAnalytics, h, h2, hvd]
  · intro h hinv
    simp [analyticsWarnings, h, hinv]

theorem c10_invalid_timestamps_witness :
    (generateAnalytics [mkT "n1", tsTweet]).totalTweets = [mkT "n1", tsTweet].length ∧
      (generateAnalytics [mkT "n1", tsTweet]).timeRange
        = (generateAnalytics ([mkT "n1", tsTweet].filter
            fun t => t.timestamp.isSome)).timeRange ∧
      ("⚠️  Found " ++ toString ([mkT "n1", tsTweet].filter
            fun t => t.timestamp.isNone).length
          ++ " tweets with invalid or missing dates. They will be excluded from analytics.")
        ∈ analyticsWarnings [mkT "n1", tsTweet] := by
  have h := c10_invalid_timestamps [mkT "n1", tsTweet]
  exact ⟨h.1, h.2.1, h.2.2 (by decide) (by decide)⟩

theorem descLikes_trans :
    ∀ (a b c : Tweet), descLikes a b = true → descLikes b c = true →
      descLikes a c = true := by
  intro a b c hab hbc
  simp [descLikes] at *
  omega

theorem descLikes_total : ∀ (a b : Tweet), (descLikes a b || descLikes b a) = true := by
  intro a b
  simp [descLikes]
  omega

theorem mergeSort_filter_stable (l : List Tweet) (k : Nat) :
    (l.mergeSort descLikes).filter (fun t => t.likes.getD 0 == k)
      = l.filter (fun t => t.likes.getD 0 == k) := by
  have hsub0 : List.Sublist (l.filter (fun t => t.likes.getD 0 == k)) l :=
    List.filter_sublist l
  have hpw : (l.filter (fun t => t.likes.getD 0 == k)).Pairwise
      (fun a b => descLikes a b = true) := by
    apply List.pairwise_of_forall_mem_list
    intro a ha b hb
    have ha2 := List.of_mem_filter ha
    have hb2 := List.of_mem_filter hb
    simp only [beq_iff_eq] at ha2 hb2
    simp [descLikes, ha2, hb2]
  have hsub : List.Sublist (l.filter (fun t => t.likes.getD 0 == k))
      (l.mergeSort descLikes) :=
    List.sublist_mergeSort descLikes_trans descLikes_total hpw hsub0
  have hsubf := hsub.filter (fun t => t.likes.getD 0 == k)
  rw [List.filter_filter] at hsubf
  simp only [Bool.and_self] at hsubf
  have hperm : List.Perm ((l.mergeSort descLikes).filter (fun t => t.likes.getD 0 == k))
      (l.filter (fun t => t.likes.getD 0 == k)) :=
    (List.mergeSort_perm l descLikes).filter _
  exact (hsubf.eq_of_length hperm.length_eq.symm).symm

/-- C8: the topTweets list is the first 5 elements of the non-retweet subset
under a stable descending-likes order, with each text truncated to 100
characters: there is an ordering of the non-retweet subset that is a
permutation of it, is sorted by descending likes, keeps posts with equal
likes in their original relative order, and whose first 5 elements, text
truncated, are exactly the reported topTweets. -/
theorem c8_top_tweets (tweets : List Tweet) :
    ∃ sorted : List Tweet,
      sorted.Perm (tweets.filter fun t => !t.isRetweet) ∧
      sorted.Pairwise (fun a b => b.likes.getD 0 ≤ a.likes.getD 0) ∧
      (∀ k : Nat, sorted.filter (fun t => t.likes.getD 0 == k)
        = (tweets.filter fun t => !t.isRetweet).filter (fun t => t.likes.getD 0 == k)) ∧
      (generateAnalytics tweets).engagement.topTweets = (sorted.take 5).map toTopTweet := by
  refine ⟨(tweets.filter fun t => !t.isRetweet).mergeSort descLikes, ?_, ?_, ?_, ?_⟩
  · exact List.mergeSort_perm _ _
  · have hs := List.sorted_mergeSort descLikes_trans descLikes_total
      (tweets.filter fun t => !t.isRetweet)
    exact hs.imp (fun h => by simpa [descLikes] using h)
  · intro k
    exact mergeSort_filter_stable _ k
  · by_cases h : tweets = []
    · simp [h, generateAnalytics, zeroAnalytics]
    · simp [generateAnalytics, h]

end ScrapeX
